import Mathlib

/-!
Shallow embedding of `packages/sdk-python/analytics_sdk/client.py`.

The SDK core is the `Analytics` client: a queue of events, an `identify`
setter for the current user id, a `track` operation that constructs an event
and appends it (flushing synchronously when the batch-size threshold is
reached), and a `flush` operation that copies-and-clears the queue, attempts
one delivery, and requeues the batch at the head on failure.

Nondeterministic inputs of the Python code are passed explicitly:
the wall-clock time (`time.time()`) is a `Nat` parameter, the session id
(`uuid.uuid4()`) is a `String` parameter, and the outcome of the HTTP post
(`requests.post` + `raise_for_status`) is a `Bool` parameter (`true` =
2xx success, `false` = any transport or status failure).

Two layers are modelled.  The functional layer (`Analytics.track`,
`Analytics.flush`) gives the sequential state semantics of the queue,
treating each `with self.lock` region as atomic.  The lock-aware layer
(`Analytics.trackL`, `Analytics.flushL`) additionally threads the state of
the non-reentrant `threading.Lock`; attempting to acquire the lock while the
same thread already holds it blocks forever, modelled as `none`.
-/

/-- An event dictionary as built by `Analytics.track` (client.py lines 51-57):
keys eventName, properties, userId, sessionId, timestamp.  Property values
are modelled as strings; the claims do not depend on their shape. -/
structure Event where
  eventName : String
  properties : List (String × String)
  userId : Option String
  sessionId : String
  timestamp : Nat
deriving DecidableEq

/-- The mutable state of an `Analytics` client (client.py lines 22-30).
The background flush thread and the lock object are not state here; the
lock is threaded explicitly in the lock-aware layer. -/
structure Analytics where
  api_url : String
  api_key : String
  batch_size : Nat
  flush_interval : Nat
  queue : List Event
  user_id : Option String
  session_id : String
deriving DecidableEq

/-- `Analytics.__init__` (client.py lines 12-31): stores the configuration
unconditionally and starts with an empty queue and no user.  The session id
(generated by `_generate_session_id`) is a parameter.  No argument is
validated. -/
def Analytics.mkClient (api_url api_key : String) (batch_size flush_interval : Nat)
    (session_id : String) : Analytics :=
  { api_url := api_url
    api_key := api_key
    batch_size := batch_size
    flush_interval := flush_interval
    queue := []
    user_id := none
    session_id := session_id }

/-- The module-level `init` function (client.py lines 110-112):
`Analytics(api_url, api_key)` with the default `batch_size=10` and
`flush_interval=5`. -/
def init (api_url api_key session_id : String) : Analytics :=
  Analytics.mkClient api_url api_key 10 5 session_id

/-- `Analytics.identify` (client.py lines 33-41): sets `self.user_id`.
The `traits` argument is accepted and discarded by the source, so it is
omitted here. -/
def Analytics.identify (s : Analytics) (user_id : String) : Analytics :=
  { s with user_id := some user_id }

/-- The event dictionary constructed by `Analytics.track`
(client.py lines 51-57).  `properties or {}` maps an absent dict to `{}`. -/
def Analytics.mkEvent (s : Analytics) (event_name : String)
    (properties : Option (List (String × String))) (now : Nat) : Event :=
  { eventName := event_name
    properties := properties.getD []
    userId := s.user_id
    sessionId := s.session_id
    timestamp := now }

/-- `self.queue.append(event)` (client.py line 60). -/
def appendEvent (q : List Event) (e : Event) : List Event :=
  q ++ [e]

/-- The drain in `Analytics.flush` (client.py lines 71-72):
`events = self.queue.copy(); self.queue.clear()` — returns the copied batch
and the cleared queue. -/
def drainAll (q : List Event) : List Event × List Event :=
  (q, [])

/-- The requeue in `Analytics.flush` (client.py line 89):
`self.queue = events + self.queue` — the failed batch goes back at the head,
ahead of anything appended since the drain. -/
def prependAll (batch q : List Event) : List Event :=
  batch ++ q

/-- Result of one `flush` (or of a `track` that may have flushed): the new
client state and, when a delivery was attempted, the batch that was posted. -/
structure FlushResult where
  state : Analytics
  sent : Option (List Event)
deriving DecidableEq

/-- `Analytics.flush` (client.py lines 65-89), functional layer.
If the queue is empty, return immediately (lines 67-68).  Otherwise drain
(copy and clear, lines 71-72), post the batch (`ok` is the outcome of
`requests.post` + `raise_for_status`), and on failure requeue the batch at
the head (line 89). -/
def Analytics.flush (s : Analytics) (ok : Bool) : FlushResult :=
  if s.queue = [] then
    { state := s, sent := none }
  else
    let pr := drainAll s.queue
    let events := pr.1
    let s1 := { s with queue := pr.2 }
    if ok then
      { state := s1, sent := some events }
    else
      { state := { s1 with queue := prependAll events s1.queue }, sent := some events }

/-- `Analytics.track` (client.py lines 43-63), functional layer.
Constructs the event from the current user id, session id and time,
appends it, and when the post-append queue length reaches
`self.batch_size` invokes `flush` synchronously.  No validation is
performed on the event name or the properties. -/
def Analytics.track (s : Analytics) (event_name : String)
    (properties : Option (List (String × String))) (now : Nat) (ok : Bool) :
    FlushResult :=
  let event := s.mkEvent event_name properties now
  let s1 := { s with queue := appendEvent s.queue event }
  if s1.queue.length ≥ s.batch_size then
    s1.flush ok
  else
    { state := s1, sent := none }

/-- `Analytics.flush` (client.py lines 65-89), lock-aware layer.
`held` is whether the calling thread already holds `self.lock`.
`threading.Lock` is not reentrant, so the `with self.lock:` at line 70
blocks forever when the caller already holds the lock: modelled as `none`.
When the lock is free, the drain happens under the lock, the lock is
released at the end of the `with` block, and the post and the failure
requeue happen with the lock free. -/
def Analytics.flushL (s : Analytics) (held : Bool) (ok : Bool) :
    Option (Analytics × Option (List Event)) :=
  if s.queue = [] then
    some (s, none)
  else if held then
    none
  else
    let pr := drainAll s.queue
    let events := pr.1
    let s1 := { s with queue := pr.2 }
    if ok then
      some (s1, some events)
    else
      some ({ s1 with queue := prependAll events s1.queue }, some events)

/-- `Analytics.track` (client.py lines 43-63), lock-aware layer.
The `with self.lock:` block at line 59 contains both the append and, when
the threshold is reached, the call to `self.flush()` (line 63) — so `flush`
is entered with the lock still held by the calling thread. -/
def Analytics.trackL (s : Analytics) (event_name : String)
    (properties : Option (List (String × String))) (now : Nat) (ok : Bool) :
    Option (Analytics × Option (List Event)) :=
  let event := s.mkEvent event_name properties now
  let s1 := { s with queue := appendEvent s.queue event }
  if s1.queue.length ≥ s.batch_size then
    s1.flushL true ok
  else
    some (s1, none)

/-!
Operation-level model of the buffer for the no-duplication/no-loss
invariant.  A run interleaves appends (from `track`, line 60), drains
(the copy-and-clear of `flush`, lines 71-72), and, for each drained batch
still in flight, either a delivery (the successful post, after which the
batch is discarded) or a requeue (line 89).  Several batches may be in
flight at once, since concurrent `flush` invocations are tolerated; the
`deliver`/`requeue` operations pick an in-flight batch by index and are
no-ops on an out-of-range index.
-/

/-- One atomic operation on the shared buffer. -/
inductive BufOp where
  | append (e : Event)
  | drain
  | deliver (i : Nat)
  | requeue (i : Nat)
deriving DecidableEq

/-- Shared state of a run: the queue, the batches drained but not yet
delivered or requeued, and everything delivered so far. -/
structure BufState where
  buffer : List Event
  inflight : List (List Event)
  delivered : List Event
deriving DecidableEq

/-- A client starts with an empty queue, nothing in flight, nothing
delivered. -/
def BufState.initState : BufState :=
  { buffer := [], inflight := [], delivered := [] }

/-- Apply one operation.  `append`, `drain` and `requeue` are the code's
`appendEvent`, `drainAll` and `prependAll`; `deliver` discards an in-flight
batch into the delivered log. -/
def BufStep (s : BufState) : BufOp → BufState
  | .append e => { s with buffer := appendEvent s.buffer e }
  | .drain =>
      { s with buffer := (drainAll s.buffer).2
               inflight := s.inflight ++ [(drainAll s.buffer).1] }
  | .deliver i =>
      if h : i < s.inflight.length then
        { s with delivered := s.delivered ++ s.inflight.get ⟨i, h⟩
                 inflight := s.inflight.eraseIdx i }
      else s
  | .requeue i =>
      if h : i < s.inflight.length then
        { s with buffer := prependAll (s.inflight.get ⟨i, h⟩) s.buffer
                 inflight := s.inflight.eraseIdx i }
      else s

/-- Run a list of operations from a state. -/
def runOps (s : BufState) : List BufOp → BufState
  | [] => s
  | op :: ops => runOps (BufStep s op) ops

/-- The events appended over a run, in order. -/
def appendedOf : List BufOp → List Event
  | [] => []
  | .append e :: ops => e :: appendedOf ops
  | .drain :: ops => appendedOf ops
  | .deliver _ :: ops => appendedOf ops
  | .requeue _ :: ops => appendedOf ops

/-- The multiset of all events a state accounts for: buffered, in flight,
or delivered. -/
def BufState.total (s : BufState) : Multiset Event :=
  (s.delivered : Multiset Event) + (s.buffer : Multiset Event)
    + (s.inflight.flatten : Multiset Event)

/-- A sample event used by concrete scenarios. -/
def ev (n : String) : Event :=
  { eventName := n, properties := [], userId := none, sessionId := "sid", timestamp := 0 }

/-- A concrete operation run for the no-loss invariant: two appends, a drain
whose batch is requeued (failed delivery), a further append, and a second
drain whose batch is delivered. -/
def opsW : List BufOp :=
  [BufOp.append (ev "a"), BufOp.append (ev "b"), BufOp.drain, BufOp.requeue 0,
   BufOp.append (ev "c"), BufOp.drain, BufOp.deliver 0]

/-- A client with `batch_size = 3` (the spec's failure-retry scenario). -/
def clientB3 : Analytics :=
  Analytics.mkClient "u" "k" 3 5 "sid"

/-- `clientB3` holding three buffered events, as after three `track` calls. -/
def s3 : Analytics :=
  { clientB3 with queue := [ev "a", ev "b", ev "c"] }

/-- The state after four `track` calls on `clientB3` where the third and
fourth deliveries fail: the requeued batch plus newer events leave four
events buffered, one more than `batch_size`. -/
def s4 : Analytics :=
  ((((clientB3.track "a" none 0 true).state.track "b" none 1 true).state.track
      "c" none 2 false).state.track "d" none 3 false).state

/-- Run `n` successive `track` calls (fixed name, absent properties, a
delivery collaborator that always succeeds). -/
def trackN (s : Analytics) : Nat → Analytics
  | 0 => s
  | n + 1 => ((trackN s n).track "e" none 0 true).state

theorem flatten_eraseIdx_multiset {α : Type} (l : List (List α)) (i : Nat)
    (h : i < l.length) :
    (l.flatten : Multiset α)
      = (l.get ⟨i, h⟩ : Multiset α) + ((l.eraseIdx i).flatten : Multiset α) := by
  induction l generalizing i with
  | nil => simp at h
  | cons x xs ih =>
    cases i with
    | zero => simp
    | succ n =>
      have h2 : n < xs.length := Nat.lt_of_succ_lt_succ h
      have hih := ih n h2
      simp only [List.flatten_cons, List.eraseIdx_cons_succ, List.get_cons_succ,
        ← Multiset.coe_add]
      rw [hih]
      abel

theorem BufStep_total (s : BufState) (op : BufOp) :
    (BufStep s op).total = s.total + (appendedOf [op] : Multiset Event) := by
  cases op with
  | append e =>
      simp only [BufStep, BufState.total, appendedOf, appendEvent, ← Multiset.coe_add]
      abel
  | drain =>
      simp only [BufStep, BufState.total, appendedOf, drainAll, List.flatten_append,
        List.flatten_cons, List.flatten_nil, List.append_nil, Multiset.coe_nil,
        ← Multiset.coe_add]
      abel
  | deliver i =>
      by_cases h : i < s.inflight.length
      · have hj := flatten_eraseIdx_multiset s.inflight i h
        simp only [BufStep, dif_pos h, appendedOf, BufState.total, Multiset.coe_nil,
          ← Multiset.coe_add]
        rw [hj]
        abel
      · simp only [BufStep, dif_neg h, appendedOf, Multiset.coe_nil, add_zero]
  | requeue i =>
      by_cases h : i < s.inflight.length
      · have hj := flatten_eraseIdx_multiset s.inflight i h
        simp only [BufStep, dif_pos h, appendedOf, BufState.total, prependAll,
          Multiset.coe_nil, ← Multiset.coe_add]
        rw [hj]
        abel
      · simp only [BufStep, dif_neg h, appendedOf, Multiset.coe_nil, add_zero]

theorem appendedOf_cons (op : BufOp) (ops : List BufOp) :
    appendedOf (op :: ops) = appendedOf [op] ++ appendedOf ops := by
  cases op <;> simp [appendedOf]

theorem runOps_total (s : BufState) (ops : List BufOp) :
    (runOps s ops).total = s.total + (appendedOf ops : Multiset Event) := by
  induction ops generalizing s with
  | nil => simp [runOps, appendedOf]
  | cons op ops ih =>
      rw [runOps, ih, BufStep_total, appendedOf_cons op ops, ← Multiset.coe_add, add_assoc]

theorem succ_mod (n b : Nat) (hb : 0 < b) :
    (n + 1) % b = if n % b + 1 = b then 0 else n % b + 1 := by
  have hd : b * (n / b) + n % b = n := Nat.div_add_mod n b
  have hlt : n % b < b := Nat.mod_lt n hb
  have key : (n + 1) % b = (b * (n / b) + (n % b + 1)) % b := by
    rw [← Nat.add_assoc, hd]
  by_cases h : n % b + 1 = b
  · rw [if_pos h, key, h, Nat.mul_add_mod, Nat.mod_self]
  · rw [if_neg h, key, Nat.mul_add_mod]
    exact Nat.mod_eq_of_lt (by omega)

theorem flush_state_of_empty (s : Analytics) (ok : Bool) (h : s.queue = []) :
    s.flush ok = { state := s, sent := none } := by
  simp [Analytics.flush, h]

theorem flush_of_ne_true (s : Analytics) (h : s.queue ≠ []) :
    s.flush true = { state := { s with queue := [] }, sent := some s.queue } := by
  simp [Analytics.flush, h, drainAll]

theorem flush_of_ne_false (s : Analytics) (h : s.queue ≠ []) :
    s.flush false = { state := s, sent := some s.queue } := by
  have : { s with queue := s.queue } = s := rfl
  simp [Analytics.flush, h, drainAll, prependAll]

theorem track_of_threshold (s : Analytics) (nm : String)
    (p : Option (List (String × String))) (t : Nat) (ok : Bool)
    (h : s.queue.length + 1 ≥ s.batch_size) :
    s.track nm p t ok = Analytics.flush { s with queue := s.queue ++ [s.mkEvent nm p t] } ok := by
  simp [Analytics.track, appendEvent, h]

theorem track_below_threshold (s : Analytics) (nm : String)
    (p : Option (List (String × String))) (t : Nat) (ok : Bool)
    (h : s.queue.length + 1 < s.batch_size) :
    s.track nm p t ok
      = { state := { s with queue := s.queue ++ [s.mkEvent nm p t] }, sent := none } := by
  have h2 : ¬ s.queue.length + 1 ≥ s.batch_size := by omega
  simp [Analytics.track, appendEvent, h2]

theorem track_state_of_threshold (s : Analytics) (nm : String)
    (p : Option (List (String × String))) (t : Nat)
    (h : s.queue.length + 1 ≥ s.batch_size) :
    (s.track nm p t true).state = { s with queue := [] } := by
  rw [track_of_threshold s nm p t true h,
    flush_of_ne_true _ (by simp)]

theorem track_sent_of_threshold (s : Analytics) (nm : String)
    (p : Option (List (String × String))) (t : Nat)
    (h : s.queue.length + 1 ≥ s.batch_size) :
    (s.track nm p t true).sent = some (s.queue ++ [s.mkEvent nm p t]) := by
  rw [track_of_threshold s nm p t true h,
    flush_of_ne_true _ (by simp)]

theorem trackN_invariant (s : Analytics) (hb : 0 < s.batch_size) (hq : s.queue = [])
    (n : Nat) :
    (trackN s n).batch_size = s.batch_size
      ∧ (trackN s n).queue.length = n % s.batch_size := by
  induction n with
  | zero =>
      refine ⟨rfl, ?_⟩
      simp [trackN, hq]
  | succ n ih =>
      obtain ⟨ihb, ihl⟩ := ih
      have hsm := succ_mod n s.batch_size hb
      have hlt : n % s.batch_size < s.batch_size := Nat.mod_lt n hb
      by_cases h : (trackN s n).queue.length + 1 ≥ (trackN s n).batch_size
      · have heq : n % s.batch_size + 1 = s.batch_size := by
          rw [ihb, ihl] at h
          omega
        have hst := track_state_of_threshold (trackN s n) "e" none 0 h
        constructor
        · show ((trackN s n).track "e" none 0 true).state.batch_size = s.batch_size
          rw [hst]
          exact ihb
        · show ((trackN s n).track "e" none 0 true).state.queue.length = (n + 1) % s.batch_size
          rw [hst, hsm, if_pos heq]
          rfl
      · have hne : n % s.batch_size + 1 ≠ s.batch_size := by
          rw [ihb, ihl] at h
          omega
        have hlt2 : (trackN s n).queue.length + 1 < (trackN s n).batch_size := by omega
        have hst := track_below_threshold (trackN s n) "e" none 0 true hlt2
        constructor
        · show ((trackN s n).track "e" none 0 true).state.batch_size = s.batch_size
          rw [hst]
          exact ihb
        · show ((trackN s n).track "e" none 0 true).state.queue.length = (n + 1) % s.batch_size
          rw [hst, hsm, if_neg hne]
          simp [ihl]


/-- C1: the claim says the delivery send of `flush` is never performed while
the buffer lock is held, so a `track` that crosses the batch-size threshold
never blocks the producer on anything but the O(1) mutation.  The code
violates this: `track` invokes `self.flush()` inside its `with self.lock:`
block (client.py line 63), and `flush` re-acquires the same non-reentrant
`threading.Lock` (line 70), so a threshold-crossing `track` blocks forever.
With `batch_size = 1`, a single `track` call deadlocks (`= none` in the
lock-aware model), while a below-threshold `track` (`batch_size = 2`)
completes normally. -/
theorem track_threshold_deadlocks :
    (Analytics.mkClient "http://x" "k" 1 5 "sid").trackL "a" none 0 true = none
    ∧ (Analytics.mkClient "http://x" "k" 2 5 "sid").trackL "a" none 0 true
      = some ({ Analytics.mkClient "http://x" "k" 2 5 "sid" with
                queue := [(Analytics.mkClient "http://x" "k" 2 5 "sid").mkEvent "a" none 0] },
              none) := by
  constructor
  · rfl
  · rfl

/-- C2: over any sequence of append / drain / deliver / requeue operations in
which every drained batch has been either delivered once or requeued once by
the end of the run (no batch left in flight), the multiset of delivered
events plus the multiset of buffered events equals the multiset of all
events ever appended: nothing is duplicated, nothing is lost. -/
theorem appended_eq_delivered_add_buffered (ops : List BufOp)
    (h : (runOps BufState.initState ops).inflight = []) :
    ((runOps BufState.initState ops).delivered : Multiset Event)
      + ((runOps BufState.initState ops).buffer : Multiset Event)
      = (appendedOf ops : Multiset Event) := by
  have ht := runOps_total BufState.initState ops
  simp only [BufState.total] at ht
  rw [h] at ht
  simpa [BufState.initState] using ht

/-- Witness for C2: a run with two appends, a failed (requeued) drain, a
third append and a delivered drain leaves no batch in flight, and the
delivered plus buffered events are exactly the three appended ones. -/
theorem appended_eq_delivered_add_buffered_witness :
    (runOps BufState.initState opsW).inflight = []
    ∧ ((runOps BufState.initState opsW).delivered : Multiset Event)
        + ((runOps BufState.initState opsW).buffer : Multiset Event)
      = (appendedOf opsW : Multiset Event) :=
  ⟨by decide, appended_eq_delivered_add_buffered opsW (by decide)⟩

/-- C3: a failed flush reinserts the drained batch verbatim at the head of
the buffer: (a) with no concurrent append, a drain followed by the failure
requeue restores the client state exactly; the batch posted is the whole
queue; a batch requeued over events `d` appended since the drain lands
ahead of them; and (b) the delivery attempt of the next flush receives
exactly the batch the failed one did. -/
theorem failed_flush_requeues_batch_verbatim (s : Analytics) (d : List Event)
    (ok2 : Bool) (h : s.queue ≠ []) :
    (s.flush false).state = s
    ∧ (s.flush false).sent = some s.queue
    ∧ prependAll (drainAll s.queue).1 ((drainAll s.queue).2 ++ d) = s.queue ++ d
    ∧ ((s.flush false).state.flush ok2).sent = (s.flush false).sent := by
  have hf := flush_of_ne_false s h
  refine ⟨by rw [hf], by rw [hf], by simp [prependAll, drainAll], ?_⟩
  rw [hf]
  cases ok2 with
  | false => rw [flush_of_ne_false s h]
  | true => rw [flush_of_ne_true s h]

/-- Witness for C3: the spec's failure-retry scenario with `batch_size = 3`
and three buffered events, one event appended after the drain. -/
theorem failed_flush_requeues_batch_verbatim_witness :
    s3.queue ≠ []
    ∧ ((s3.flush false).state = s3
        ∧ (s3.flush false).sent = some s3.queue
        ∧ prependAll (drainAll s3.queue).1 ((drainAll s3.queue).2 ++ [ev "d"])
          = s3.queue ++ [ev "d"]
        ∧ ((s3.flush false).state.flush true).sent = (s3.flush false).sent) :=
  ⟨by decide, failed_flush_requeues_batch_verbatim s3 [ev "d"] true (by decide)⟩

/-- C4: `track` constructs the event from the current user id, the fixed
session id and the current time, appends it, and invokes `flush`
synchronously exactly when the post-append queue length reaches
`batch_size`; below the threshold the call only appends.  The default
`batch_size` installed by `init` is 10. -/
theorem track_appends_and_flushes_at_threshold (s : Analytics) (nm : String)
    (p : Option (List (String × String))) (t : Nat) (ok : Bool) :
    s.mkEvent nm p t
      = { eventName := nm, properties := p.getD [], userId := s.user_id,
          sessionId := s.session_id, timestamp := t }
    ∧ (init "u" "k" "sid").batch_size = 10
    ∧ (s.queue.length + 1 ≥ s.batch_size →
        s.track nm p t ok = Analytics.flush { s with queue := s.queue ++ [s.mkEvent nm p t] } ok)
    ∧ (s.queue.length + 1 < s.batch_size →
        s.track nm p t ok
          = { state := { s with queue := s.queue ++ [s.mkEvent nm p t] }, sent := none }) :=
  ⟨rfl, rfl, track_of_threshold s nm p t ok, track_below_threshold s nm p t ok⟩

/-- Witness for C4, at a client with one buffered event and `batch_size = 2`
(so the threshold implication is exercised with a true antecedent). -/
theorem track_appends_and_flushes_at_threshold_witness :
    ({ Analytics.mkClient "u" "k" 2 5 "sid" with queue := [ev "x"] }).mkEvent "a" none 7
      = { eventName := "a", properties := [], userId := none, sessionId := "sid",
          timestamp := 7 }
    ∧ (init "u" "k" "sid").batch_size = 10
    ∧ (({ Analytics.mkClient "u" "k" 2 5 "sid" with queue := [ev "x"] }).queue.length + 1
          ≥ ({ Analytics.mkClient "u" "k" 2 5 "sid" with queue := [ev "x"] }).batch_size →
        ({ Analytics.mkClient "u" "k" 2 5 "sid" with queue := [ev "x"] }).track "a" none 7 true
          = Analytics.flush
              { { Analytics.mkClient "u" "k" 2 5 "sid" with queue := [ev "x"] } with
                queue := ({ Analytics.mkClient "u" "k" 2 5 "sid" with queue := [ev "x"] }).queue
                  ++ [({ Analytics.mkClient "u" "k" 2 5 "sid" with queue := [ev "x"] }).mkEvent "a" none 7] }
              true)
    ∧ (({ Analytics.mkClient "u" "k" 2 5 "sid" with queue := [ev "x"] }).queue.length + 1
          < ({ Analytics.mkClient "u" "k" 2 5 "sid" with queue := [ev "x"] }).batch_size →
        ({ Analytics.mkClient "u" "k" 2 5 "sid" with queue := [ev "x"] }).track "a" none 7 true
          = { state := { { Analytics.mkClient "u" "k" 2 5 "sid" with queue := [ev "x"] } with
                queue := ({ Analytics.mkClient "u" "k" 2 5 "sid" with queue := [ev "x"] }).queue
                  ++ [({ Analytics.mkClient "u" "k" 2 5 "sid" with queue := [ev "x"] }).mkEvent "a" none 7] },
              sent := none }) :=
  track_appends_and_flushes_at_threshold
    { Analytics.mkClient "u" "k" 2 5 "sid" with queue := [ev "x"] } "a" none 7 true

/-- C5 counterexample: the claim says a `track` with an empty event name is
rejected and never enters the buffer.  The code performs no validation:
`track("")` on a fresh client appends an event whose name is the empty
string, no delivery is attempted, and the buffered names are `[""]`. -/
theorem empty_name_event_enters_buffer :
    ((init "u" "k" "sid").track "" none 0 true).state.queue
      = [{ eventName := "", properties := [], userId := none, sessionId := "sid",
           timestamp := 0 }]
    ∧ ((init "u" "k" "sid").track "" none 0 true).state.queue.map Event.eventName = [""]
    ∧ ((init "u" "k" "sid").track "" none 0 true).sent = none := by
  refine ⟨rfl, rfl, rfl⟩

/-- C5 amended: `track` performs no validation.  A call with an empty event
name (below the flush threshold) appends the event — whose name is the empty
string — to the buffer exactly like any other call, raising no error and
attempting no delivery. -/
theorem track_accepts_empty_name (s : Analytics)
    (p : Option (List (String × String))) (t : Nat) (ok : Bool)
    (h : s.queue.length + 1 < s.batch_size) :
    (s.track "" p t ok).state.queue = s.queue ++ [s.mkEvent "" p t]
    ∧ (s.mkEvent "" p t).eventName = ""
    ∧ (s.track "" p t ok).sent = none := by
  rw [track_below_threshold s "" p t ok h]
  exact ⟨rfl, rfl, rfl⟩

/-- Witness for C5's amended claim, on a fresh default client. -/
theorem track_accepts_empty_name_witness :
    (init "u" "k" "sid").queue.length + 1 < (init "u" "k" "sid").batch_size
    ∧ (((init "u" "k" "sid").track "" none 0 true).state.queue
          = (init "u" "k" "sid").queue ++ [(init "u" "k" "sid").mkEvent "" none 0]
        ∧ ((init "u" "k" "sid").mkEvent "" none 0).eventName = ""
        ∧ ((init "u" "k" "sid").track "" none 0 true).sent = none) :=
  ⟨by decide, track_accepts_empty_name (init "u" "k" "sid") none 0 true (by decide)⟩

/-- C6 counterexample: the claim says a missing (empty) `apiUrl` or `apiKey`
raises a configuration error and no client is produced.  The code performs
no validation: `init("", "")` returns a fully-formed client carrying the
empty credentials. -/
theorem client_produced_with_missing_config :
    init "" "" "sid"
      = { api_url := "", api_key := "", batch_size := 10, flush_interval := 5,
          queue := [], user_id := none, session_id := "sid" } := rfl

/-- C6 amended: construction never fails and validates nothing — for every
`apiUrl`/`apiKey`, including empty ones, `__init__` stores the configuration
verbatim (with defaults `batch_size = 10`, `flush_interval = 5` via `init`)
and produces a working client: a first `track` on it buffers one event. -/
theorem mkClient_never_fails (api_url api_key sid : String) (b f : Nat) :
    Analytics.mkClient api_url api_key b f sid
      = { api_url := api_url, api_key := api_key, batch_size := b, flush_interval := f,
          queue := [], user_id := none, session_id := sid }
    ∧ init api_url api_key sid = Analytics.mkClient api_url api_key 10 5 sid
    ∧ ((init api_url api_key sid).track "a" none 0 true).state.queue.length = 1 := by
  refine ⟨rfl, rfl, ?_⟩
  rw [track_below_threshold (init api_url api_key sid) "a" none 0 true (by
    show 0 + 1 < 10
    omega)]
  rfl

/-- C7: `flush` on an empty buffer returns before doing anything
(client.py lines 67-68): no delivery is attempted and the client state is
unchanged, whatever the collaborator would have answered. -/
theorem flush_empty_buffer_noop (s : Analytics) (ok : Bool) (h : s.queue = []) :
    s.flush ok = { state := s, sent := none } :=
  flush_state_of_empty s ok h

/-- Witness for C7: a fresh default client has an empty queue, and flushing
it changes nothing and sends nothing. -/
theorem flush_empty_buffer_noop_witness :
    (init "u" "k" "sid").queue = []
    ∧ (init "u" "k" "sid").flush true
      = { state := init "u" "k" "sid", sent := none } :=
  ⟨rfl, flush_empty_buffer_noop (init "u" "k" "sid") true rfl⟩

/-- C8: starting from an empty buffer with a positive `batch_size` and an
always-succeeding collaborator, after `n` sequential `track` calls the
buffer length is `n % batch_size`; and the next `track` call triggers a
synchronous flush (a delivery is attempted) exactly when it crosses the
threshold, i.e. when `n % batch_size + 1 ≥ batch_size`. -/
theorem queue_length_after_n_tracks (s : Analytics) (n : Nat)
    (hq : s.queue = []) (hb : 0 < s.batch_size) :
    (trackN s n).queue.length = n % s.batch_size
    ∧ (((trackN s n).track "e" none 0 true).sent.isSome
        ↔ n % s.batch_size + 1 ≥ s.batch_size) := by
  obtain ⟨hbs, hlen⟩ := trackN_invariant s hb hq n
  refine ⟨hlen, ?_⟩
  by_cases h : n % s.batch_size + 1 ≥ s.batch_size
  · have hcond : (trackN s n).queue.length + 1 ≥ (trackN s n).batch_size := by
      rw [hbs, hlen]
      exact h
    rw [track_sent_of_threshold (trackN s n) "e" none 0 hcond]
    simpa using h
  · have hcond : (trackN s n).queue.length + 1 < (trackN s n).batch_size := by
      rw [hbs, hlen]
      omega
    rw [track_below_threshold (trackN s n) "e" none 0 true hcond]
    simpa using h

/-- Witness for C8: with `batch_size = 3`, seven `track` calls leave
`7 % 3 = 1` event buffered, and the eighth call does not flush. -/
theorem queue_length_after_n_tracks_witness :
    clientB3.queue = []
    ∧ 0 < clientB3.batch_size
    ∧ ((trackN clientB3 7).queue.length = 7 % clientB3.batch_size
        ∧ (((trackN clientB3 7).track "e" none 0 true).sent.isSome
            ↔ 7 % clientB3.batch_size + 1 ≥ clientB3.batch_size)) :=
  ⟨rfl, by decide, queue_length_after_n_tracks clientB3 7 rfl (by decide)⟩

/-- C9: `identify` replaces only the current user id: the buffered events
and every other field of the client are untouched, an event constructed by
a later `track` carries the new user id, and an event constructed on a
client that was never identified carries no user id. -/
theorem identify_frame_effect (s : Analytics) (u nm : String)
    (p : Option (List (String × String))) (t : Nat) (url key sid : String) :
    (s.identify u).queue = s.queue
    ∧ (s.identify u).session_id = s.session_id
    ∧ (s.identify u).api_url = s.api_url
    ∧ (s.identify u).api_key = s.api_key
    ∧ (s.identify u).batch_size = s.batch_size
    ∧ (s.identify u).flush_interval = s.flush_interval
    ∧ (s.identify u).user_id = some u
    ∧ ((s.identify u).mkEvent nm p t).userId = some u
    ∧ (init url key sid).user_id = none
    ∧ ((init url key sid).mkEvent nm p t).userId = none :=
  ⟨rfl, rfl, rfl, rfl, rfl, rfl, rfl, rfl, rfl, rfl⟩

/-- C10: a flush on a nonempty buffer posts the entire current queue as one
batch — `flush` never splits the queue and imposes no `batch_size` bound on
the batch it sends. -/
theorem flush_sends_entire_queue (s : Analytics) (ok : Bool) (h : s.queue ≠ []) :
    (s.flush ok).sent = some s.queue
    ∧ ((s.flush ok).sent.getD []).length = s.queue.length := by
  cases ok with
  | true =>
      rw [flush_of_ne_true s h]
      exact ⟨rfl, rfl⟩
  | false =>
      rw [flush_of_ne_false s h]
      exact ⟨rfl, rfl⟩

/-- Witness for C10: after a failed batch of three is requeued and a fourth
event arrives, `s4` (batch_size 3) holds four events, and the next flush
posts all four in one batch — more than `batch_size`. -/
theorem flush_sends_entire_queue_witness :
    s4.queue ≠ []
    ∧ ((s4.flush true).sent = some s4.queue
        ∧ ((s4.flush true).sent.getD []).length = s4.queue.length)
    ∧ s4.batch_size < s4.queue.length :=
  ⟨by decide, flush_sends_entire_queue s4 true (by decide), by decide⟩
